import Mathlib

/-!
Shallow embedding of the cache-aside layer in `app/cache.py`.

The Redis backend is modelled as an optional association list from keys to
stored texts; the Python `redis_client` being `None` is `Option.none`.
The `json` library is modelled by `Json` (the JSON value domain:
null, booleans, numbers, strings, arrays, objects), `json_dumps` and
`json_loads`.  A stored text is either `Stored.ok j` — the text produced
by `json.dumps` on the value `j`, which is always a nonempty (hence
Python-truthy) string — or `Stored.bad s`, backend text that
`json.loads` rejects (raises).  Numbers are modelled as integers; float
representation issues are outside the claims considered here.

Transient network/protocol failures of an individual backend call are
modelled by an explicit `fault : Bool` argument on each operation: when
it is `true`, the backend call raises and the Python `except` branch of
that operation runs.  Key expiry is enforced by the backend, not by this
layer; there is no clock in the model, so reads are "immediate" reads.
`SETEX` with a nonpositive TTL is rejected by the backend (a protocol
error), which the model folds into the same failure branch.

Python's single `None` value plays two roles in `get_cache`: it is the
"not found" sentinel and it is the decoding of a stored `"null"` text.
The embedding is faithful to this: `get_cache` returns a `Json` value and
the sentinel is `Json.null`.
-/

inductive Json where
  | null : Json
  | bool (b : Bool) : Json
  | num (n : Int) : Json
  | str (s : String) : Json
  | arr (elems : List Json) : Json
  | obj (entries : List (String × Json)) : Json

/-- Python's `x is None` test on a JSON value. -/
def Json.isNull : Json → Bool
  | .null => true
  | _ => false

inductive Stored where
  | ok (j : Json) : Stored
  | bad (s : String) : Stored

/-- Python truthiness of the text returned by `redis_client.get`:
`json.dumps` output is never empty, so `ok _` is truthy; a raw backend
text is truthy iff nonempty. -/
def Stored.truthy : Stored → Bool
  | .ok _ => true
  | .bad s => s ≠ ""

/-- Model of `json.dumps` on a JSON-serializable value: always succeeds. -/
def json_dumps (v : Json) : Stored := Stored.ok v

/-- Model of `json.loads`: inverts `json_dumps`, rejects bad text. -/
def json_loads : Stored → Option Json
  | .ok j => some j
  | .bad _ => none

structure CacheMetrics where
  hits : Nat
  misses : Nat
  errors : Nat
  deriving DecidableEq

def CacheMetrics.record_hit (m : CacheMetrics) : CacheMetrics :=
  ⟨m.hits + 1, m.misses, m.errors⟩

def CacheMetrics.record_miss (m : CacheMetrics) : CacheMetrics :=
  ⟨m.hits, m.misses + 1, m.errors⟩

def CacheMetrics.record_error (m : CacheMetrics) : CacheMetrics :=
  ⟨m.hits, m.misses, m.errors + 1⟩

/-- Hit rate `CacheMetrics.get_hit_rate`: `hits / total * 100` when `total > 0`,
else `0.0`.  Python float arithmetic is modelled exactly over `ℚ`. -/
def CacheMetrics.get_hit_rate (m : CacheMetrics) : ℚ :=
  let total := m.hits + m.misses
  if total > 0 then (m.hits : ℚ) / (total : ℚ) * 100 else 0

/-- Model of Python `round(x, 2)`: round to the nearest hundredth. -/
def round2 (q : ℚ) : ℚ := (round (q * 100) : ℚ) / 100

structure CacheStats where
  hits : Nat
  misses : Nat
  errors : Nat
  hit_rate : ℚ
  total_requests : Nat
  deriving DecidableEq

def CacheMetrics.get_stats (m : CacheMetrics) : CacheStats :=
  ⟨m.hits, m.misses, m.errors, round2 m.get_hit_rate, m.hits + m.misses⟩

def CacheMetrics.reset (_ : CacheMetrics) : CacheMetrics := ⟨0, 0, 0⟩

/-- The backend's key space: an association list, newest binding first. -/
abbrev RedisStore := List (String × Stored)

def lookupStore : RedisStore → String → Option Stored
  | [], _ => none
  | (k, v) :: rest, key => if k = key then some v else lookupStore rest key

def removeStore (store : RedisStore) (key : String) : RedisStore :=
  store.filter (fun e => e.1 ≠ key)

def insertStore (store : RedisStore) (key : String) (v : Stored) : RedisStore :=
  (key, v) :: removeStore store key

/-- Process state: the nullable backend handle (with its key space) and
the global metrics instance. -/
structure CacheState where
  redis_client : Option RedisStore
  metrics : CacheMetrics

/-- Read `get_cache(key)`: returns the Python value produced (the sentinel is
`Json.null`, the same value a stored `"null"` decodes to) and the updated
state.  `fault = true` means the `redis_client.get` call raised.  Note the
order in the source: `record_hit` runs before `json.loads`, so a decode
failure lands in the `except` branch after the hit was already counted. -/
def get_cache (st : CacheState) (fault : Bool) (key : String) :
    Json × CacheState :=
  match st.redis_client with
  | none => (Json.null, st)
  | some store =>
    if fault then
      (Json.null, ⟨st.redis_client, st.metrics.record_error⟩)
    else
      match lookupStore store key with
      | some v =>
        if v.truthy then
          match json_loads v with
          | some j => (j, ⟨st.redis_client, st.metrics.record_hit⟩)
          | none =>
            (Json.null, ⟨st.redis_client, st.metrics.record_hit.record_error⟩)
        else (Json.null, ⟨st.redis_client, st.metrics.record_miss⟩)
      | none => (Json.null, ⟨st.redis_client, st.metrics.record_miss⟩)

/-- Write `set_cache(key, value, ttl)`: serializes and issues `SETEX`.
`fault = true` models a raised network error; the backend also rejects a
nonpositive TTL (`SETEX` protocol error), landing in the same `except`
branch, which records an error and returns `False`. -/
def set_cache (st : CacheState) (fault : Bool) (key : String) (value : Json)
    (ttl : Int) : Bool × CacheState :=
  match st.redis_client with
  | none => (false, st)
  | some store =>
    if fault ∨ ttl ≤ 0 then
      (false, ⟨st.redis_client, st.metrics.record_error⟩)
    else
      (true, ⟨some (insertStore store key (json_dumps value)), st.metrics⟩)

/-- Delete `delete_cache(key)`: issues `DEL`.  Its `except` branch only logs —
it does not touch the metrics. -/
def delete_cache (st : CacheState) (fault : Bool) (key : String) :
    Bool × CacheState :=
  match st.redis_client with
  | none => (false, st)
  | some store =>
    if fault then (false, st)
    else (true, ⟨some (removeStore store key), st.metrics⟩)

/-- Clear `clear_cache()`: issues `FLUSHDB`.  Its `except` branch only logs. -/
def clear_cache (st : CacheState) (fault : Bool) : Bool × CacheState :=
  match st.redis_client with
  | none => (false, st)
  | some _ =>
    if fault then (false, st)
    else (true, ⟨some [], st.metrics⟩)

/-- Python's `sorted(kwargs.items())` compares `(name, value)` tuples
lexicographically: by name, and by value on a name tie (a tie cannot
occur for the items of a dict, whose names are unique, but the order is
total regardless).  Argument values are modelled after their `str` form,
which is what the key builder interpolates. -/
def kwLe (a b : String × String) : Prop :=
  a.1 < b.1 ∨ (a.1 = b.1 ∧ a.2 ≤ b.2)

instance : DecidableRel kwLe := fun a b => by
  unfold kwLe; exact inferInstance

instance : IsTrans (String × String) kwLe := by
  constructor
  intro a b c hab hbc
  rcases hab with h1 | ⟨h1, h2⟩ <;> rcases hbc with h3 | ⟨h3, h4⟩
  · exact Or.inl (lt_trans h1 h3)
  · exact Or.inl (h3 ▸ h1)
  · exact Or.inl (h1 ▸ h3)
  · exact Or.inr ⟨h1.trans h3, le_trans h2 h4⟩

instance : IsAntisymm (String × String) kwLe := by
  constructor
  intro a b hab hba
  rcases hab with h1 | ⟨h1, h2⟩
  · rcases hba with h3 | ⟨h3, _⟩
    · exact absurd (lt_trans h1 h3) (lt_irrefl _)
    · exact absurd h1 (h3 ▸ lt_irrefl _)
  · rcases hba with h3 | ⟨_, h4⟩
    · exact absurd h3 (h1 ▸ lt_irrefl _)
    · exact Prod.ext h1 (le_antisymm h2 h4)

instance : IsTotal (String × String) kwLe := by
  constructor
  intro a b
  rcases lt_trichotomy a.1 b.1 with h | h | h
  · exact Or.inl (Or.inl h)
  · rcases le_total a.2 b.2 with h2 | h2
    · exact Or.inl (Or.inr ⟨h, h2⟩)
    · exact Or.inr (Or.inr ⟨h.symm, h2⟩)
  · exact Or.inr (Or.inl h)

/-- Model of Python `sorted(kwargs.items())`. -/
def sortKwargs (kwargs : List (String × String)) : List (String × String) :=
  List.insertionSort kwLe kwargs

/-- Cache key construction from the wrapper:
`key_parts = [key_prefix or func.__name__]`, then the `str` of each
positional argument, then `f"{k}:{v}"` for each sorted keyword item,
joined with `":"`.  Positional arguments are modelled after their `str`
form. -/
def cacheKey (keyPfx funcName : String) (args : List String)
    (kwargs : List (String × String)) : String :=
  let base := if keyPfx = "" then funcName else keyPfx
  let parts :=
    base :: (args ++ (sortKwargs kwargs).map (fun kv => kv.1 ++ ":" ++ kv.2))
  String.intercalate ":" parts

/-- The `wrapper` closure produced by `cached(ttl, key_prefix)` around a
producer.  The producer is a pure function of the (stringified)
positional and keyword arguments; its returning Python `None` is
`Json.null`.  Returns the wrapper's result, the final state, and whether
the producer was invoked. -/
def wrapper (producer : List String → List (String × String) → Json)
    (ttl : Int) (keyPfx funcName : String)
    (st : CacheState) (faultGet faultSet : Bool)
    (args : List String) (kwargs : List (String × String)) :
    Json × CacheState × Bool :=
  let cache_key := cacheKey keyPfx funcName args kwargs
  let got := get_cache st faultGet cache_key
  if got.1.isNull then
    let result := producer args kwargs
    if result.isNull then
      (result, got.2, true)
    else
      (result, (set_cache got.2 faultSet cache_key result ttl).2, true)
  else
    (got.1, got.2, false)

/-! ### Helper lemmas -/

lemma lookup_remove_self (store : RedisStore) (k : String) :
    lookupStore (removeStore store k) k = none := by
  induction store with
  | nil => rfl
  | cons e rest ih =>
    obtain ⟨ek, ev⟩ := e
    by_cases h : ek = k
    · have hdrop : removeStore ((ek, ev) :: rest) k = removeStore rest k := by
        simp [removeStore, List.filter_cons, h]
      rw [hdrop]; exact ih
    · have hkeep : removeStore ((ek, ev) :: rest) k =
          (ek, ev) :: removeStore rest k := by
        simp [removeStore, List.filter_cons, h]
      rw [hkeep]
      simp [lookupStore, h, ih]

lemma lookup_insert_self (store : RedisStore) (k : String) (v : Stored) :
    lookupStore (insertStore store k v) k = some v := by
  simp [insertStore, lookupStore]

/-- The value component of a read depends only on the backend handle,
not on the metrics. -/
lemma get_cache_fst_metrics (c : Option RedisStore) (m m' : CacheMetrics)
    (f : Bool) (k : String) :
    (get_cache ⟨c, m⟩ f k).1 = (get_cache ⟨c, m'⟩ f k).1 := by
  cases c with
  | none => rfl
  | some store =>
    simp only [get_cache]
    cases f
    · cases h : lookupStore store k with
      | none => rfl
      | some v =>
        cases hv : v.truthy
        · simp [hv]
        · cases hl : json_loads v <;> simp [hv, hl]
    · rfl

/-- A read never changes the backend handle (only metrics move). -/
lemma get_cache_client (st : CacheState) (f : Bool) (k : String) :
    (get_cache st f k).2.redis_client = st.redis_client := by
  obtain ⟨c, m⟩ := st
  cases c with
  | none => rfl
  | some store =>
    simp only [get_cache]
    cases f
    · cases h : lookupStore store k with
      | none => rfl
      | some v =>
        cases hv : v.truthy
        · simp [hv]
        · cases hl : json_loads v <;> simp [hv, hl]
    · rfl

/-- A successful write on a live backend with a positive TTL stores the
serialized value and leaves the metrics alone. -/
lemma set_cache_success (st : CacheState) (store : RedisStore) (k : String)
    (v : Json) (t : Int) (hc : st.redis_client = some store) (ht : 0 < t) :
    set_cache st false k v t =
      (true, ⟨some (insertStore store k (json_dumps v)), st.metrics⟩) := by
  simp only [set_cache, hc]
  rw [if_neg]
  rintro (h | h)
  · simp at h
  · omega

/-- Reading a key whose stored text is `json.dumps j` decodes `j` and
records a hit. -/
lemma get_cache_stored_ok (st : CacheState) (store : RedisStore) (k : String)
    (j : Json) (hc : st.redis_client = some store)
    (hk : lookupStore store k = some (Stored.ok j)) :
    get_cache st false k = (j, ⟨st.redis_client, st.metrics.record_hit⟩) := by
  simp [get_cache, hc, hk, Stored.truthy, json_loads]

/-- Reading an absent key on a live backend records a miss. -/
lemma get_cache_absent (st : CacheState) (store : RedisStore) (k : String)
    (hc : st.redis_client = some store) (hk : lookupStore store k = none) :
    get_cache st false k = (Json.null, ⟨st.redis_client, st.metrics.record_miss⟩) := by
  simp [get_cache, hc, hk]

lemma isNull_false_of_ne (j : Json) (h : j ≠ Json.null) : j.isNull = false := by
  cases j
  · exact absurd rfl h
  all_goals rfl

lemma eq_null_of_isNull (j : Json) (h : j.isNull = true) : j = Json.null := by
  cases j
  · rfl
  all_goals exact absurd h (by simp [Json.isNull])

lemma get_cache_fst_eq_of_client_eq (st st' : CacheState) (f : Bool)
    (k : String) (h : st.redis_client = st'.redis_client) :
    (get_cache st f k).1 = (get_cache st' f k).1 := by
  obtain ⟨c, m⟩ := st
  obtain ⟨c', m'⟩ := st'
  simp only at h
  subst h
  exact get_cache_fst_metrics c m m' f k

/-- Whenever the read comes back as the sentinel, the wrapper invokes
the producer. -/
lemma wrapper_invoked_of_miss
    (producer : List String → List (String × String) → Json) (ttl : Int)
    (keyPfx funcName : String) (st : CacheState) (faultGet faultSet : Bool)
    (args : List String) (kwargs : List (String × String))
    (h : (get_cache st faultGet (cacheKey keyPfx funcName args kwargs)).1.isNull
      = true) :
    (wrapper producer ttl keyPfx funcName st faultGet faultSet args
      kwargs).2.2 = true := by
  simp only [wrapper]
  rw [if_pos h]
  split <;> rfl

/-- Sorting is invariant under permutation of the input: the kwarg order
relation is total, transitive and antisymmetric, so the sorted result is
unique on each permutation class. -/
lemma sortKwargs_perm_eq (kw1 kw2 : List (String × String))
    (h : kw1.Perm kw2) : sortKwargs kw1 = sortKwargs kw2 :=
  List.eq_of_perm_of_sorted
    ((List.perm_insertionSort kwLe kw1).trans
      (h.trans (List.perm_insertionSort kwLe kw2).symm))
    (List.sorted_insertionSort kwLe kw1)
    (List.sorted_insertionSort kwLe kw2)

/-! ### Claim theorems -/

/-- C8: with a null backend handle, `get_cache` returns the sentinel and
no counter moves; `set_cache`, `delete_cache`, `clear_cache` return
`False` with no side effect on backend or metrics (the state is returned
unchanged in all four cases). -/
theorem no_backend_noop (st : CacheState) (f : Bool) (k : String) (v : Json)
    (t : Int) (hc : st.redis_client = none) :
    get_cache st f k = (Json.null, st) ∧
    set_cache st f k v t = (false, st) ∧
    delete_cache st f k = (false, st) ∧
    clear_cache st f = (false, st) := by
  refine ⟨?_, ?_, ?_, ?_⟩
  · simp only [get_cache, hc]
  · simp only [set_cache, hc]
  · simp only [delete_cache, hc]
  · simp only [clear_cache, hc]

/-- C8 witness: concrete evaluation with no backend. -/
theorem no_backend_noop_witness :
    get_cache ⟨none, ⟨1, 2, 3⟩⟩ false "k" = (Json.null, ⟨none, ⟨1, 2, 3⟩⟩) ∧
    set_cache ⟨none, ⟨1, 2, 3⟩⟩ false "k" (Json.num 7) 300 =
      (false, ⟨none, ⟨1, 2, 3⟩⟩) ∧
    delete_cache ⟨none, ⟨1, 2, 3⟩⟩ false "k" = (false, ⟨none, ⟨1, 2, 3⟩⟩) ∧
    clear_cache ⟨none, ⟨1, 2, 3⟩⟩ false = (false, ⟨none, ⟨1, 2, 3⟩⟩) :=
  no_backend_noop ⟨none, ⟨1, 2, 3⟩⟩ false "k" (Json.num 7) 300 rfl

/-- C4: with a live backend and a positive TTL, a fault-free
`set_cache(k, v, t)` succeeds and an immediately following
`get_cache(k)` returns a value equal to `v` — round-trip fidelity over
the JSON value domain (scalars, arrays, objects). -/
theorem write_then_read_roundtrip (st : CacheState) (store : RedisStore)
    (k : String) (v : Json) (t : Int)
    (hc : st.redis_client = some store) (ht : 0 < t) :
    (set_cache st false k v t).1 = true ∧
    (get_cache (set_cache st false k v t).2 false k).1 = v := by
  rw [set_cache_success st store k v t hc ht]
  refine ⟨rfl, ?_⟩
  rw [get_cache_stored_ok ⟨some (insertStore store k (json_dumps v)), st.metrics⟩
    (insertStore store k (json_dumps v)) k v rfl
    (lookup_insert_self store k (json_dumps v))]

/-- C4 witness: a concrete nested value (an object holding an array and
scalars) written with TTL 60 and read back. -/
theorem write_then_read_roundtrip_witness :
    (set_cache ⟨some [], ⟨0, 0, 0⟩⟩ false "items:all"
        (Json.obj [("xs", Json.arr [Json.num 1, Json.str "two", Json.bool false]),
                   ("n", Json.null)]) 60).1 = true ∧
    (get_cache (set_cache ⟨some [], ⟨0, 0, 0⟩⟩ false "items:all"
        (Json.obj [("xs", Json.arr [Json.num 1, Json.str "two", Json.bool false]),
                   ("n", Json.null)]) 60).2 false "items:all").1 =
      Json.obj [("xs", Json.arr [Json.num 1, Json.str "two", Json.bool false]),
                ("n", Json.null)] :=
  write_then_read_roundtrip ⟨some [], ⟨0, 0, 0⟩⟩ [] "items:all"
    (Json.obj [("xs", Json.arr [Json.num 1, Json.str "two", Json.bool false]),
               ("n", Json.null)]) 60 rfl (by norm_num)

/-- C10: the cache key derivation is not injective — two distinct
positional argument lists produce the same key, because the `str` of an
argument may itself contain the `":"` delimiter. -/
theorem cache_key_not_injective :
    ∃ a1 a2 : List String, a1 ≠ a2 ∧
      cacheKey "product" "get_product" a1 [] =
        cacheKey "product" "get_product" a2 [] :=
  ⟨["a:b"], ["a", "b"], by decide, rfl⟩

/-- C1 counterexample: on an empty live backend, `set_cache("k", null, 300)`
succeeds, yet the subsequent read returns exactly the same result as
reading the absent key did — the "not found" sentinel is Python `None`,
which is also what a stored `null` decodes to, so the two reads are not
distinguishable. -/
theorem write_null_read_indistinct_cex :
    (set_cache ⟨some [], ⟨0, 0, 0⟩⟩ false "k" Json.null 300).1 = true ∧
    (get_cache (set_cache ⟨some [], ⟨0, 0, 0⟩⟩ false "k" Json.null 300).2
        false "k").1 =
      (get_cache ⟨some [], ⟨0, 0, 0⟩⟩ false "k").1 :=
  ⟨rfl, rfl⟩

/-- C1 (amended): reading an absent key returns the `None` sentinel; the
sentinel is distinct from every stored value *other than `null`*: after a
successful `write(k, null, ttl)`, `read(k)` returns the very same result
as reading an absent key, while after writing any non-null value the
read result differs from the absent-key result. -/
theorem sentinel_vs_stored_null (st : CacheState) (store : RedisStore)
    (k : String) (t : Int) (hc : st.redis_client = some store)
    (habs : lookupStore store k = none) (ht : 0 < t) :
    (get_cache st false k).1 = Json.null ∧
    (set_cache st false k Json.null t).1 = true ∧
    (get_cache (set_cache st false k Json.null t).2 false k).1 =
      (get_cache st false k).1 ∧
    ∀ j : Json, j ≠ Json.null →
      (get_cache (set_cache st false k j t).2 false k).1 ≠
        (get_cache st false k).1 := by
  have habsent := get_cache_absent st store k hc habs
  refine ⟨by rw [habsent], ?_, ?_, ?_⟩
  · rw [set_cache_success st store k Json.null t hc ht]
  · rw [set_cache_success st store k Json.null t hc ht,
      get_cache_stored_ok ⟨some (insertStore store k (json_dumps Json.null)), st.metrics⟩
        (insertStore store k (json_dumps Json.null)) k Json.null rfl
        (lookup_insert_self store k (json_dumps Json.null)), habsent]
  · intro j hj
    rw [set_cache_success st store k j t hc ht,
      get_cache_stored_ok ⟨some (insertStore store k (json_dumps j)), st.metrics⟩
        (insertStore store k (json_dumps j)) k j rfl
        (lookup_insert_self store k (json_dumps j)), habsent]
    exact hj

/-- C1 witness: concrete instance of the amended statement on an empty
backend with key "k" and TTL 300. -/
theorem sentinel_vs_stored_null_witness :
    (get_cache ⟨some [], ⟨0, 0, 0⟩⟩ false "k").1 = Json.null ∧
    (set_cache ⟨some [], ⟨0, 0, 0⟩⟩ false "k" Json.null 300).1 = true ∧
    (get_cache (set_cache ⟨some [], ⟨0, 0, 0⟩⟩ false "k" Json.null 300).2
        false "k").1 = (get_cache ⟨some [], ⟨0, 0, 0⟩⟩ false "k").1 ∧
    ∀ j : Json, j ≠ Json.null →
      (get_cache (set_cache ⟨some [], ⟨0, 0, 0⟩⟩ false "k" j 300).2
          false "k").1 ≠ (get_cache ⟨some [], ⟨0, 0, 0⟩⟩ false "k").1 :=
  sentinel_vs_stored_null ⟨some [], ⟨0, 0, 0⟩⟩ [] "k" 300 rfl rfl (by norm_num)

/-- C2 counterexample: with the backend holding undecodable text under
"k", `get_cache("k")` increments the *hit* counter as well as the error
counter (the source records the hit before calling `json.loads`),
contradicting "increments the error counter and no other counter". -/
theorem decode_failure_counts_hit_cex :
    ((get_cache ⟨some [("k", Stored.bad "oops")], ⟨0, 0, 0⟩⟩ false
        "k").2.metrics.hits = 1) ∧
    ((get_cache ⟨some [("k", Stored.bad "oops")], ⟨0, 0, 0⟩⟩ false
        "k").2.metrics.errors = 1) ∧
    ((get_cache ⟨some [("k", Stored.bad "oops")], ⟨0, 0, 0⟩⟩ false
        "k").1 = Json.null) :=
  ⟨rfl, rfl, rfl⟩

/-- C2 (amended): a present-but-undecodable entry is returned as the
"not found" sentinel with no exception, and it increments **both** the
hit counter (recorded before decoding) and the error counter; the miss
counter and the backend are untouched. -/
theorem decode_failure_metrics (st : CacheState) (store : RedisStore)
    (k : String) (s : String) (hc : st.redis_client = some store)
    (hk : lookupStore store k = some (Stored.bad s)) (hs : s ≠ "") :
    get_cache st false k =
      (Json.null,
        ⟨st.redis_client,
          ⟨st.metrics.hits + 1, st.metrics.misses, st.metrics.errors + 1⟩⟩) := by
  simp [get_cache, hc, hk, Stored.truthy, json_loads, hs,
    CacheMetrics.record_hit, CacheMetrics.record_error]

/-- C2 witness: concrete undecodable entry on nonzero starting counters. -/
theorem decode_failure_metrics_witness :
    get_cache ⟨some [("k", Stored.bad "oops")], ⟨4, 5, 6⟩⟩ false "k" =
      (Json.null, ⟨some [("k", Stored.bad "oops")], ⟨5, 5, 7⟩⟩) :=
  decode_failure_metrics ⟨some [("k", Stored.bad "oops")], ⟨4, 5, 6⟩⟩
    [("k", Stored.bad "oops")] "k" "oops" rfl rfl (by decide)

/-- C3 counterexample: a raising `DEL` (and a raising `FLUSHDB`) on a
live backend returns `False` but leaves the error counter at 0 —
contradicting "increments the error counter". -/
theorem delete_clear_fault_no_error_cex :
    (delete_cache ⟨some [("k", Stored.ok (Json.num 1))], ⟨0, 0, 0⟩⟩ true
        "k").1 = false ∧
    (delete_cache ⟨some [("k", Stored.ok (Json.num 1))], ⟨0, 0, 0⟩⟩ true
        "k").2.metrics.errors = 0 ∧
    (clear_cache ⟨some [("k", Stored.ok (Json.num 1))], ⟨0, 0, 0⟩⟩
        true).1 = false ∧
    (clear_cache ⟨some [("k", Stored.ok (Json.num 1))], ⟨0, 0, 0⟩⟩
        true).2.metrics.errors = 0 :=
  ⟨rfl, rfl, rfl, rfl⟩

/-- C3 (amended): when a backend handle is present and the backend call
raises, `delete_cache` and `clear_cache` return `False` and propagate no
exception, but they do **not** record an error: the whole state — store
and all three counters — is returned unchanged (their `except` branches
only log; only `get_cache`/`set_cache` record errors). -/
theorem delete_clear_fault_no_metrics (st : CacheState) (store : RedisStore)
    (k : String) (hc : st.redis_client = some store) :
    delete_cache st true k = (false, st) ∧ clear_cache st true = (false, st) := by
  constructor
  · simp [delete_cache, hc]
  · simp [clear_cache, hc]

/-- C3 witness: concrete raising delete and clear. -/
theorem delete_clear_fault_no_metrics_witness :
    delete_cache ⟨some [("k", Stored.ok (Json.num 1))], ⟨7, 8, 9⟩⟩ true "k" =
      (false, ⟨some [("k", Stored.ok (Json.num 1))], ⟨7, 8, 9⟩⟩) ∧
    clear_cache ⟨some [("k", Stored.ok (Json.num 1))], ⟨7, 8, 9⟩⟩ true =
      (false, ⟨some [("k", Stored.ok (Json.num 1))], ⟨7, 8, 9⟩⟩) :=
  delete_clear_fault_no_metrics ⟨some [("k", Stored.ok (Json.num 1))], ⟨7, 8, 9⟩⟩
    [("k", Stored.ok (Json.num 1))] "k" rfl

/-- C5 counterexample: the derived key `"product:x"` maps to a present
backend entry (a stored `null`), yet the wrapper invokes the producer —
a stored `null` decodes to Python `None`, which is the "not found"
sentinel, so a present entry does not always suppress the producer. -/
theorem memoize_present_entry_invokes_producer_cex :
    lookupStore [("product:x", Stored.ok Json.null)]
        (cacheKey "product" "f" ["x"] []) = some (Stored.ok Json.null) ∧
    (wrapper (fun _ _ => Json.bool true) 300 "product" "f"
        ⟨some [("product:x", Stored.ok Json.null)], ⟨0, 0, 0⟩⟩
        false false ["x"] []).2.2 = true :=
  ⟨rfl, rfl⟩

/-- C5 (amended): if the derived key maps to a present entry storing any
value other than `null` — including falsy values such as `0`, `""` and
`false` — the wrapper returns that value, records a hit, and does not
invoke the producer; and whenever the producer is invoked, the preceding
read returned the "not found" sentinel (a stored `null`, the one value
that reads back as the sentinel, is the only present entry that lets the
producer run). -/
theorem memoize_hit_skips_producer :
    (∀ (producer : List String → List (String × String) → Json)
        (ttl : Int) (keyPfx funcName : String) (st : CacheState)
        (store : RedisStore) (faultSet : Bool) (args : List String)
        (kwargs : List (String × String)) (j : Json),
      st.redis_client = some store →
      lookupStore store (cacheKey keyPfx funcName args kwargs) =
        some (Stored.ok j) →
      j ≠ Json.null →
      wrapper producer ttl keyPfx funcName st false faultSet args kwargs =
        (j, ⟨st.redis_client, st.metrics.record_hit⟩, false)) ∧
    (∀ (producer : List String → List (String × String) → Json)
        (ttl : Int) (keyPfx funcName : String) (st : CacheState)
        (faultGet faultSet : Bool) (args : List String)
        (kwargs : List (String × String)),
      (wrapper producer ttl keyPfx funcName st faultGet faultSet args
          kwargs).2.2 = true →
      (get_cache st faultGet (cacheKey keyPfx funcName args kwargs)).1 =
        Json.null) := by
  constructor
  · intro producer ttl keyPfx funcName st store faultSet args kwargs j hc hk hj
    simp only [wrapper]
    rw [get_cache_stored_ok st store (cacheKey keyPfx funcName args kwargs) j hc hk]
    simp [isNull_false_of_ne j hj]
  · intro producer ttl keyPfx funcName st faultGet faultSet args kwargs hinv
    by_cases h : (get_cache st faultGet
        (cacheKey keyPfx funcName args kwargs)).1.isNull = true
    · exact eq_null_of_isNull _ h
    · exfalso
      simp only [wrapper] at hinv
      rw [if_neg h] at hinv
      exact absurd hinv (by simp)

/-- C5 witness: a cached falsy value (the number `0`) is returned with a
hit and the producer is not invoked. -/
theorem memoize_hit_skips_producer_witness :
    wrapper (fun _ _ => Json.str "recomputed") 300 "product" "f"
        ⟨some [("product:x", Stored.ok (Json.num 0))], ⟨0, 0, 0⟩⟩
        false false ["x"] [] =
      (Json.num 0, ⟨some [("product:x", Stored.ok (Json.num 0))], ⟨1, 0, 0⟩⟩,
        false) :=
  memoize_hit_skips_producer.1 (fun _ _ => Json.str "recomputed") 300
    "product" "f" ⟨some [("product:x", Stored.ok (Json.num 0))], ⟨0, 0, 0⟩⟩
    [("product:x", Stored.ok (Json.num 0))] false ["x"] [] (Json.num 0)
    rfl rfl (by intro h; cases h)

/-- C6: a producer result of `None` is never written — the backend is
left unchanged, so if this call invoked the producer, a repeat call with
the same arguments invokes it again; a non-`None` result is passed to
`set_cache(key, result, ttl)` and then returned unchanged. -/
theorem memoize_null_skip (producer : List String → List (String × String) → Json)
    (ttl : Int) (keyPfx funcName : String) (st : CacheState)
    (faultGet faultSet : Bool) (args : List String)
    (kwargs : List (String × String)) :
    (producer args kwargs = Json.null →
      (wrapper producer ttl keyPfx funcName st faultGet faultSet args
          kwargs).2.1.redis_client = st.redis_client ∧
      ((wrapper producer ttl keyPfx funcName st faultGet faultSet args
          kwargs).2.2 = true →
        (wrapper producer ttl keyPfx funcName
          (wrapper producer ttl keyPfx funcName st faultGet faultSet args
            kwargs).2.1 faultGet faultSet args kwargs).2.2 = true)) ∧
    (producer args kwargs ≠ Json.null →
      (get_cache st faultGet (cacheKey keyPfx funcName args kwargs)).1 =
        Json.null →
      wrapper producer ttl keyPfx funcName st faultGet faultSet args kwargs =
        (producer args kwargs,
          (set_cache
            (get_cache st faultGet (cacheKey keyPfx funcName args kwargs)).2
            faultSet (cacheKey keyPfx funcName args kwargs)
            (producer args kwargs) ttl).2,
          true)) := by
  constructor
  · intro hnull
    by_cases h : (get_cache st faultGet
        (cacheKey keyPfx funcName args kwargs)).1.isNull = true
    · have hw : wrapper producer ttl keyPfx funcName st faultGet faultSet
          args kwargs =
          (producer args kwargs,
            (get_cache st faultGet (cacheKey keyPfx funcName args kwargs)).2,
            true) := by
        simp only [wrapper]
        rw [if_pos h, hnull]
        rfl
      refine ⟨by rw [hw]; exact get_cache_client st faultGet _, ?_⟩
      intro _
      rw [hw]
      show (wrapper producer ttl keyPfx funcName
          (get_cache st faultGet (cacheKey keyPfx funcName args kwargs)).2
          faultGet faultSet args kwargs).2.2 = true
      apply wrapper_invoked_of_miss
      rw [get_cache_fst_eq_of_client_eq
        (get_cache st faultGet (cacheKey keyPfx funcName args kwargs)).2 st
        faultGet (cacheKey keyPfx funcName args kwargs)
        (get_cache_client st faultGet (cacheKey keyPfx funcName args kwargs))]
      exact h
    · have hw : wrapper producer ttl keyPfx funcName st faultGet faultSet
          args kwargs =
          ((get_cache st faultGet (cacheKey keyPfx funcName args kwargs)).1,
            (get_cache st faultGet (cacheKey keyPfx funcName args kwargs)).2,
            false) := by
        simp only [wrapper]
        rw [if_neg h]
      refine ⟨by rw [hw]; exact get_cache_client st faultGet _, ?_⟩
      intro hinv
      rw [hw] at hinv
      exact absurd hinv (by simp)
  · intro hres hmiss
    simp only [wrapper]
    rw [if_pos (by rw [hmiss]; rfl), isNull_false_of_ne _ hres]
    simp

/-- C6 witness: on an empty backend a null-returning producer is invoked
on the first and again on the second call with the store untouched, and
a non-null producer result (`42`) is written and returned. -/
theorem memoize_null_skip_witness :
    ((wrapper (fun _ _ => Json.null) 300 "p" "f" ⟨some [], ⟨0, 0, 0⟩⟩
        false false ["x"] []).2.1.redis_client = some [] ∧
      (wrapper (fun _ _ => Json.null) 300 "p" "f"
        (wrapper (fun _ _ => Json.null) 300 "p" "f" ⟨some [], ⟨0, 0, 0⟩⟩
          false false ["x"] []).2.1 false false ["x"] []).2.2 = true) ∧
    wrapper (fun _ _ => Json.num 42) 300 "p" "f" ⟨some [], ⟨0, 0, 0⟩⟩
        false false ["x"] [] =
      (Json.num 42,
        (set_cache
          (get_cache ⟨some [], ⟨0, 0, 0⟩⟩ false (cacheKey "p" "f" ["x"] [])).2
          false (cacheKey "p" "f" ["x"] []) (Json.num 42) 300).2,
        true) := by
  have h1 := (memoize_null_skip (fun _ _ => Json.null) 300 "p" "f"
    ⟨some [], ⟨0, 0, 0⟩⟩ false false ["x"] []).1 rfl
  have h2 := (memoize_null_skip (fun _ _ => Json.num 42) 300 "p" "f"
    ⟨some [], ⟨0, 0, 0⟩⟩ false false ["x"] []).2 (by intro h; cases h) rfl
  exact ⟨⟨h1.1, h1.2 rfl⟩, h2⟩

/-- C7: the cache key is a pure function of the prefix/function identity
and the arguments, and it is invariant under any reordering of the
keyword arguments (Python's `sorted(kwargs.items())` canonicalizes the
order). -/
theorem cache_key_kwargs_order (keyPfx funcName : String)
    (args : List String) (kw1 kw2 : List (String × String))
    (h : kw1.Perm kw2) :
    cacheKey keyPfx funcName args kw1 = cacheKey keyPfx funcName args kw2 := by
  unfold cacheKey
  rw [sortKwargs_perm_eq kw1 kw2 h]

/-- C7 witness: supplying the keyword arguments in either order yields
the same key. -/
theorem cache_key_kwargs_order_witness :
    cacheKey "user" "get_user" ["7"] [("b", "2"), ("a", "1")] =
      cacheKey "user" "get_user" ["7"] [("a", "1"), ("b", "2")] :=
  cache_key_kwargs_order "user" "get_user" ["7"]
    [("b", "2"), ("a", "1")] [("a", "1"), ("b", "2")]
    (List.Perm.swap ("a", "1") ("b", "2") [])

/-- C9: the hit rate is `hits / (hits + misses) * 100`, is `0` when the
denominator is zero (total function, no division-by-zero error), and the
stats snapshot reports the counters together with the rate rounded to
two decimals and the total request count. -/
theorem hit_rate_spec (m : CacheMetrics) :
    (m.hits + m.misses = 0 → m.get_hit_rate = 0) ∧
    (m.hits + m.misses ≠ 0 →
      m.get_hit_rate = (m.hits : ℚ) / ((m.hits : ℚ) + (m.misses : ℚ)) * 100) ∧
    m.get_stats =
      ⟨m.hits, m.misses, m.errors, round2 m.get_hit_rate,
        m.hits + m.misses⟩ := by
  refine ⟨?_, ?_, rfl⟩
  · intro h
    simp [CacheMetrics.get_hit_rate, h]
  · intro h
    have hpos : 0 < m.hits + m.misses := Nat.pos_of_ne_zero h
    simp only [CacheMetrics.get_hit_rate, hpos, if_pos]
    push_cast
    ring

/-- C9 witness: 3 hits and 1 miss give a 75% hit rate. -/
theorem hit_rate_spec_witness :
    CacheMetrics.get_hit_rate ⟨3, 1, 2⟩ = 75 := by
  have h := (hit_rate_spec ⟨3, 1, 2⟩).2.1 (by decide)
  rw [h]
  norm_num
